import Mathlib

/-!
Verification of the GCD transaction-level testbench (pyuvm/cocotb) against
its design specification. The Python source under pyuvm/gcd/ is shallowly
embedded: mutable component state becomes explicit state passing, the
cooperative clock-edge waits become functions over signal traces indexed by
the number of rising edges awaited, and the bounded while-loops become
fuel-structured recursions whose fuel strictly exceeds the loop bound (so the
fuel is never exhausted and the recursion coincides with the source loop).
-/

/-- Embeds `GCDTransaction.__init__` fields (gcd_transaction.py): two unsigned
input operands, a load flag, the captured output and a result-valid flag. -/
structure GCDTransaction where
  value1 : Nat
  value2 : Nat
  loadingValues : Bool
  outputGCD : Nat
  outputValid : Bool
deriving DecidableEq, Repr

/-- A freshly constructed transaction: both operands 0, load false,
output 0, valid false (gcd_transaction.py `__init__`). -/
def GCDTransaction.init : GCDTransaction :=
  { value1 := 0, value2 := 0, loadingValues := false, outputGCD := 0, outputValid := false }

/-- Embeds the scoreboard's mutable counters (gcd_scoreboard.py `__init__`). -/
structure GCDScoreboard where
  passed : Nat
  failed : Nat
deriving DecidableEq, Repr

/-- Embeds `GCDScoreboard.check_transaction`: the expected value is
`math.gcd(value1, value2)` (on naturals, `Nat.gcd`); pass iff the captured
output equals it and the valid flag is true, otherwise fail; exactly one
counter is incremented. -/
def check_transaction (sb : GCDScoreboard) (txn : GCDTransaction) : GCDScoreboard :=
  let expected_gcd := Nat.gcd txn.value1 txn.value2
  if txn.outputGCD = expected_gcd ∧ txn.outputValid = true then
    { sb with passed := sb.passed + 1 }
  else
    { sb with failed := sb.failed + 1 }

/-- A run of the scoreboard from its freshly constructed state over the list
of transactions delivered by its analysis export (`write` calls
`check_transaction` once per received transaction). -/
def runScoreboard (txns : List GCDTransaction) : GCDScoreboard :=
  txns.foldl check_transaction { passed := 0, failed := 0 }

/-- Outcome of `GCDScoreboard.report_phase`: `fatal` when the final
`raise Exception` fires, `ok` on a clean summary, `noTransactions` when the
scoreboard checked nothing and only warns. -/
inductive ReportOutcome where
  | fatal
  | ok
  | noTransactions
deriving DecidableEq, Repr

/-- Embeds `GCDScoreboard.report_phase`: when `total > 0` it reports the
summary and raises an exception iff `failed > 0`; otherwise it only logs a
warning. -/
def report_phase (sb : GCDScoreboard) : ReportOutcome :=
  if 0 < sb.passed + sb.failed then
    if 0 < sb.failed then ReportOutcome.fatal else ReportOutcome.ok
  else
    ReportOutcome.noTransactions

/-- Embeds the coverage collector's bins (gcd_coverage.py `__init__`). -/
structure GCDCoverage where
  zero_cases : Nat
  one_cases : Nat
  equal_cases : Nat
  coprime_cases : Nat
  max_value_cases : Nat
  power_of_two_cases : Nat
  total_transactions : Nat
deriving DecidableEq, Repr

/-- Embeds `GCDCoverage.is_power_of_two`: `n > 0 and (n & (n - 1)) == 0`. -/
def is_power_of_two (n : Nat) : Bool :=
  decide (0 < n) && decide (n &&& (n - 1) = 0)

/-- Embeds `GCDCoverage.write`: increment the total, then test each bin
predicate independently and increment its counter when it holds. -/
def coverage_write (cov : GCDCoverage) (txn : GCDTransaction) : GCDCoverage :=
  let cov := { cov with total_transactions := cov.total_transactions + 1 }
  let cov := if txn.value1 = 0 ∨ txn.value2 = 0 then
      { cov with zero_cases := cov.zero_cases + 1 } else cov
  let cov := if txn.value1 = 1 ∨ txn.value2 = 1 then
      { cov with one_cases := cov.one_cases + 1 } else cov
  let cov := if txn.value1 = txn.value2 then
      { cov with equal_cases := cov.equal_cases + 1 } else cov
  let cov := if txn.outputGCD = 1 then
      { cov with coprime_cases := cov.coprime_cases + 1 } else cov
  let cov := if txn.value1 = 65535 ∨ txn.value2 = 65535 then
      { cov with max_value_cases := cov.max_value_cases + 1 } else cov
  let cov := if is_power_of_two txn.value1 || is_power_of_two txn.value2 then
      { cov with power_of_two_cases := cov.power_of_two_cases + 1 } else cov
  cov

lemma runScoreboard_total (sb : GCDScoreboard) (txns : List GCDTransaction) :
    (txns.foldl check_transaction sb).passed + (txns.foldl check_transaction sb).failed
      = sb.passed + sb.failed + txns.length := by
  induction txns generalizing sb with
  | nil => simp
  | cons txn rest ih =>
      simp only [List.foldl_cons, List.length_cons, ih]
      simp only [check_transaction]
      split <;> simp <;> omega

/-- C1: for every transaction the scoreboard receives, if the captured output
equals the reference gcd and the valid flag is true then `passed` increments
by exactly one with `failed` unchanged, otherwise `failed` increments by
exactly one with `passed` unchanged; and over any run the final
`passed + failed` equals the number of transactions received. -/
theorem scoreboard_check_spec :
    (∀ (sb : GCDScoreboard) (txn : GCDTransaction),
      ((txn.outputGCD = Nat.gcd txn.value1 txn.value2 ∧ txn.outputValid = true) →
        (check_transaction sb txn).passed = sb.passed + 1 ∧
        (check_transaction sb txn).failed = sb.failed) ∧
      (¬ (txn.outputGCD = Nat.gcd txn.value1 txn.value2 ∧ txn.outputValid = true) →
        (check_transaction sb txn).failed = sb.failed + 1 ∧
        (check_transaction sb txn).passed = sb.passed)) ∧
    (∀ txns : List GCDTransaction,
      (runScoreboard txns).passed + (runScoreboard txns).failed = txns.length) := by
  constructor
  · intro sb txn
    constructor
    · intro h
      simp only [check_transaction]
      simp [h]
    · intro h
      simp only [check_transaction]
      split
      · exact absurd (by assumption) h
      · simp
  · intro txns
    have := runScoreboard_total { passed := 0, failed := 0 } txns
    simpa [runScoreboard] using this

/-- Closed instance of C1: a matching transaction with valid output is
counted as a pass, and a two-transaction run sums to two. -/
theorem scoreboard_check_spec_witness :
    (check_transaction { passed := 0, failed := 0 }
        { value1 := 48, value2 := 18, loadingValues := true,
          outputGCD := 6, outputValid := true }).passed = 0 + 1 ∧
    (check_transaction { passed := 0, failed := 0 }
        { value1 := 48, value2 := 18, loadingValues := true,
          outputGCD := 6, outputValid := true }).failed = 0 :=
  (scoreboard_check_spec.1 { passed := 0, failed := 0 }
    { value1 := 48, value2 := 18, loadingValues := true,
      outputGCD := 6, outputValid := true }).1 (by decide)

/-- C4: at end of run the scoreboard raises a fatal exception exactly when its
`failed` counter is positive; checking individual transactions never raises
(the run keeps processing every subsequent transaction regardless of earlier
mismatches), and only the aggregate end-of-run check escalates. -/
theorem scoreboard_report_spec :
    (∀ sb : GCDScoreboard, 0 < sb.failed → report_phase sb = ReportOutcome.fatal) ∧
    (∀ txns : List GCDTransaction,
      report_phase (runScoreboard txns) = ReportOutcome.fatal ↔
        0 < (runScoreboard txns).failed) ∧
    (∀ (txns : List GCDTransaction) (txn : GCDTransaction),
      runScoreboard (txns ++ [txn]) = check_transaction (runScoreboard txns) txn) := by
  refine ⟨?_, ?_, ?_⟩
  · intro sb h
    unfold report_phase
    rw [if_pos (by omega), if_pos h]
  · intro txns
    constructor
    · intro h
      unfold report_phase at h
      by_cases h0 : 0 < (runScoreboard txns).passed + (runScoreboard txns).failed
      · rw [if_pos h0] at h
        by_cases hf : 0 < (runScoreboard txns).failed
        · exact hf
        · rw [if_neg hf] at h
          exact absurd h (by simp)
      · rw [if_neg h0] at h
        exact absurd h (by simp)
    · intro hf
      unfold report_phase
      rw [if_pos (by omega), if_pos hf]
  · intro txns txn
    unfold runScoreboard
    simp [List.foldl_append]

/-- Closed instance of C4: a run with one mismatch reports fatal. -/
theorem scoreboard_report_spec_witness :
    report_phase { passed := 4, failed := 1 } = ReportOutcome.fatal :=
  scoreboard_report_spec.1 { passed := 4, failed := 1 } (by decide)

/-- C5: every received transaction increments the coverage total by one, each
bin is tested independently (bins overlap), and each bin counter increments
exactly when its predicate holds: zero-operand, unity-operand, equal-operands,
coprime observed result, boundary value 65535, and power-of-two operand under
the source test `n > 0 and (n & (n - 1)) == 0`; in particular the transaction
(17, 19, gcd 1) bumps only the coprime bin among coprime/zero/equal, and
(256, 1024) bumps the power-of-two bin. -/
theorem coverage_write_spec :
    (∀ (cov : GCDCoverage) (txn : GCDTransaction),
      (coverage_write cov txn).total_transactions = cov.total_transactions + 1 ∧
      (coverage_write cov txn).zero_cases =
        cov.zero_cases + (if txn.value1 = 0 ∨ txn.value2 = 0 then 1 else 0) ∧
      (coverage_write cov txn).one_cases =
        cov.one_cases + (if txn.value1 = 1 ∨ txn.value2 = 1 then 1 else 0) ∧
      (coverage_write cov txn).equal_cases =
        cov.equal_cases + (if txn.value1 = txn.value2 then 1 else 0) ∧
      (coverage_write cov txn).coprime_cases =
        cov.coprime_cases + (if txn.outputGCD = 1 then 1 else 0) ∧
      (coverage_write cov txn).max_value_cases =
        cov.max_value_cases + (if txn.value1 = 65535 ∨ txn.value2 = 65535 then 1 else 0) ∧
      (coverage_write cov txn).power_of_two_cases =
        cov.power_of_two_cases +
          (if is_power_of_two txn.value1 || is_power_of_two txn.value2 then 1 else 0)) ∧
    (∀ cov : GCDCoverage,
      (coverage_write cov { value1 := 17, value2 := 19, loadingValues := true,
                            outputGCD := 1, outputValid := true }).coprime_cases =
        cov.coprime_cases + 1 ∧
      (coverage_write cov { value1 := 17, value2 := 19, loadingValues := true,
                            outputGCD := 1, outputValid := true }).zero_cases =
        cov.zero_cases ∧
      (coverage_write cov { value1 := 17, value2 := 19, loadingValues := true,
                            outputGCD := 1, outputValid := true }).equal_cases =
        cov.equal_cases) ∧
    (∀ cov : GCDCoverage,
      (coverage_write cov { value1 := 256, value2 := 1024, loadingValues := true,
                            outputGCD := 256, outputValid := true }).power_of_two_cases =
        cov.power_of_two_cases + 1) := by
  refine ⟨?_, ?_, ?_⟩
  · intro cov txn
    simp only [coverage_write]
    split_ifs <;> simp_all
  · intro cov
    simp [coverage_write, is_power_of_two]
  · intro cov
    simp [coverage_write, is_power_of_two]
    rw [if_pos (by decide)]

/-- The five directed operand pairs of the spec's directed-vector check, each
answered by the design with the reference gcd and the valid flag raised. -/
def directedFiveRun : List GCDTransaction :=
  [(48, 18), (17, 19), (100, 100), (1071, 462), (256, 1024)].map
    (fun p => { value1 := p.1, value2 := p.2, loadingValues := true,
                outputGCD := Nat.gcd p.1 p.2, outputValid := true })

/-- C7: over exactly the pairs (48,18), (17,19), (100,100), (1071,462),
(256,1024) with correct design responses, the reference gcds are 6, 1, 100,
21, 256 and the scoreboard ends with passed = 5 and failed = 0. -/
theorem directed_five_spec :
    Nat.gcd 48 18 = 6 ∧ Nat.gcd 17 19 = 1 ∧ Nat.gcd 100 100 = 100 ∧
    Nat.gcd 1071 462 = 21 ∧ Nat.gcd 256 1024 = 256 ∧
    (runScoreboard directedFiveRun).passed = 5 ∧
    (runScoreboard directedFiveRun).failed = 0 := by
  decide

/-- The design-under-test's interface signals as traces over clock edges:
index `t` is the value sampled after the t-th rising edge awaited since the
reference point stated by each consumer (start of `drive_transaction` for the
driver, the load-detection edge for the monitor). -/
structure DutSignals where
  loadingValues : Nat → Bool
  value1 : Nat → Nat
  value2 : Nat → Nat
  outputValid : Nat → Bool
  outputGCD : Nat → Nat

/-- The driver's drain-phase bound `max_wait = 10` (gcd_driver.py). -/
def max_wait : Nat := 10

/-- The shared wait bound `max_cycles = 1000` of both the driver's wait phase
and the monitor's wait loop. -/
def max_cycles : Nat := 1000

/-- Embeds the driver's drain loop
`while outputValid == 1 and wait_cycles < max_wait: await edge` —
returns the edge index at which the loop exits. The fuel argument exceeds the
loop bound, so with `wait_cycles` starting at 0 it is never exhausted. -/
def drainLoop (valid : Nat → Bool) : Nat → Nat → Nat → Nat
  | 0, t, _ => t
  | fuel + 1, t, w =>
      if valid t = true ∧ w < max_wait then drainLoop valid fuel (t + 1) (w + 1) else t

/-- Embeds the bounded wait loop shared by driver and monitor,
`while outputValid == 0 and cycles < max_cycles: await edge; cycles += 1` —
returns the exit edge index together with the final `cycles` counter. The
fuel exceeds the bound, so with `cycles` starting at 0 it is never
exhausted. -/
def waitLoop (valid : Nat → Bool) : Nat → Nat → Nat → Nat × Nat
  | 0, t, c => (t, c)
  | fuel + 1, t, c =>
      if valid t = false ∧ c < max_cycles then waitLoop valid fuel (t + 1) (c + 1) else (t, c)

/-- Embeds `GCDDriver.drive_transaction`: drive the operands with the load
strobe, wait one edge, deassert load, drain any stale valid, then wait
(bounded) for the result. On timeout (`cycles >= max_cycles`) an error is
logged — the second component is `true` — and the transaction is left
untouched; otherwise the output field and valid flag are captured from the
signals at the exit edge. -/
def drive_transaction (dut : DutSignals) (txn : GCDTransaction) : GCDTransaction × Bool :=
  let t1 : Nat := 1
  let t2 := drainLoop dut.outputValid (max_wait + 1) t1 0
  let r := waitLoop dut.outputValid (max_cycles + 1) t2 0
  if max_cycles ≤ r.2 then
    (txn, true)
  else
    ({ txn with outputGCD := dut.outputGCD r.1, outputValid := dut.outputValid r.1 }, false)

/-- Embeds the per-item body of `GCDDriver.run_phase`: each pulled transaction
is driven and then published to the analysis port unconditionally; the loop
then proceeds to the next item, so the published stream is the map of
`drive_transaction` over the pulled stream. `duts k` is the signal trace as
seen from the start of the k-th drive. -/
def driver_run_phase (duts : Nat → DutSignals) : Nat → List GCDTransaction → List GCDTransaction
  | _, [] => []
  | k, txn :: rest => (drive_transaction (duts k) txn).1 :: driver_run_phase duts (k + 1) rest

/-- Embeds the per-load body of `GCDMonitor.run_phase`: when the load strobe
is sampled high at edge `t`, the operands are captured into a fresh
transaction and the monitor waits (bounded, same `max_cycles`) for the valid
flag. If the wait exits with `cycles < max_cycles` the output and valid flag
are captured and the transaction is published (`some`); on timeout only a
warning is logged and nothing is published (`none`). -/
def monitorObserve (dut : DutSignals) (t : Nat) : Option GCDTransaction :=
  if dut.loadingValues t = true then
    let txn0 : GCDTransaction :=
      { GCDTransaction.init with
          value1 := dut.value1 t, value2 := dut.value2 t, loadingValues := true }
    let r := waitLoop dut.outputValid (max_cycles + 1) t 0
    if r.2 < max_cycles then
      some { txn0 with outputGCD := dut.outputGCD r.1, outputValid := dut.outputValid r.1 }
    else
      none
  else
    none

lemma waitLoop_spec (valid : Nat → Bool) :
    ∀ (fuel t c : Nat), c ≤ max_cycles → max_cycles < c + fuel →
      ∃ d, waitLoop valid fuel t c = (t + d, c + d) ∧ c + d ≤ max_cycles ∧
        (∀ i, i < d → valid (t + i) = false) ∧
        (c + d < max_cycles → valid (t + d) = true) := by
  intro fuel
  induction fuel with
  | zero => intro t c hc hlt; omega
  | succ fuel ih =>
      intro t c hc hlt
      by_cases hcond : valid t = false ∧ c < max_cycles
      · obtain ⟨d, hd, hle, hfalse, hvalid⟩ := ih (t + 1) (c + 1) (by omega) (by omega)
        refine ⟨d + 1, ?_, by omega, ?_, ?_⟩
        · rw [waitLoop, if_pos hcond, hd]
          simp only [Prod.mk.injEq]
          omega
        · intro i hi
          cases i with
          | zero => simpa using hcond.1
          | succ i =>
              have := hfalse i (by omega)
              simpa [Nat.add_assoc, Nat.add_comm 1 i] using this
        · intro hlt2
          have := hvalid (by omega)
          simpa [Nat.add_assoc, Nat.add_comm 1 d] using this
      · refine ⟨0, ?_, by omega, by omega, ?_⟩
        · rw [waitLoop, if_neg hcond]
          simp
        · intro hlt2
          rcases Bool.eq_false_or_eq_true (valid t) with ht | hf
          · simpa using ht
          · exact absurd ⟨hf, by omega⟩ hcond

lemma drainLoop_exit (valid : Nat → Bool) (fuel t w : Nat) (h : valid t = false) :
    drainLoop valid (fuel + 1) t w = t := by
  rw [drainLoop, if_neg]
  simp [h]

lemma waitLoop_never (valid : Nat → Bool) (t : Nat)
    (h : ∀ i, i < max_cycles → valid (t + i) = false) :
    waitLoop valid (max_cycles + 1) t 0 = (t + max_cycles, max_cycles) := by
  obtain ⟨d, hd, hle, _, hvalid⟩ :=
    waitLoop_spec valid (max_cycles + 1) t 0 (by omega) (by omega)
  have hdmax : d = max_cycles := by
    by_contra hne
    have hlt : d < max_cycles := by omega
    have htrue := hvalid (by omega)
    rw [h d hlt] at htrue
    exact Bool.noConfusion htrue
  rw [hd, hdmax]
  simp

lemma waitLoop_first (valid : Nat → Bool) (t j : Nat) (hj : j < max_cycles)
    (hbefore : ∀ i, i < j → valid (t + i) = false) (hat : valid (t + j) = true) :
    waitLoop valid (max_cycles + 1) t 0 = (t + j, j) := by
  obtain ⟨d, hd, hle, hfalse, hvalid⟩ :=
    waitLoop_spec valid (max_cycles + 1) t 0 (by omega) (by omega)
  have hdj : d = j := by
    rcases lt_trichotomy d j with h1 | h2 | h3
    · have htrue := hvalid (by omega)
      rw [hbefore d h1] at htrue
      exact Bool.noConfusion htrue
    · exact h2
    · have hcontra := hfalse j h3
      rw [hat] at hcontra
      exact Bool.noConfusion hcontra
  rw [hd, hdj]
  simp

/-- C3: against a design that never asserts result-valid, the driver's wait
phase exits with its cycle counter at exactly the `max_cycles = 1000` bound,
an error is logged and the transaction's output fields are left untouched (no
fabricated result, valid still false), and the transaction is nevertheless
published while every subsequent transaction is still processed and published
in turn. -/
theorem driver_timeout_spec (dut : DutSignals) (txn : GCDTransaction)
    (duts : Nat → DutSignals) (txns : List GCDTransaction) (k : Nat)
    (h : ∀ t, dut.outputValid t = false)
    (hall : ∀ m t, (duts m).outputValid t = false)
    (hv : txn.outputValid = false) :
    (waitLoop dut.outputValid (max_cycles + 1)
        (drainLoop dut.outputValid (max_wait + 1) 1 0) 0).2 = max_cycles ∧
    drive_transaction dut txn = (txn, true) ∧
    (drive_transaction dut txn).1.outputValid = false ∧
    driver_run_phase duts k txns = txns := by
  have hdrive : ∀ (d2 : DutSignals) (tx : GCDTransaction), (∀ t, d2.outputValid t = false) →
      drive_transaction d2 tx = (tx, true) := by
    intro d2 tx hd2
    have hdrain : drainLoop d2.outputValid (max_wait + 1) 1 0 = 1 :=
      drainLoop_exit _ _ _ _ (hd2 1)
    have hwait : waitLoop d2.outputValid (max_cycles + 1) 1 0 = (1 + max_cycles, max_cycles) :=
      waitLoop_never _ _ (fun i _ => hd2 (1 + i))
    simp [drive_transaction, hdrain, hwait]
  refine ⟨?_, hdrive dut txn h, ?_, ?_⟩
  · have hdrain : drainLoop dut.outputValid (max_wait + 1) 1 0 = 1 :=
      drainLoop_exit _ _ _ _ (h 1)
    rw [hdrain, waitLoop_never _ _ (fun i _ => h (1 + i))]
  · rw [hdrive dut txn h]
    exact hv
  · induction txns generalizing k with
    | nil => rfl
    | cons txn2 rest ih =>
        simp [driver_run_phase, hdrive (duts k) txn2 (hall k), ih (k + 1)]

/-- A trace whose result-valid flag never asserts and whose load strobe stays
low; all data fields are zero. -/
def deadDut : DutSignals :=
  { loadingValues := fun _ => false, value1 := fun _ => 0, value2 := fun _ => 0,
    outputValid := fun _ => false, outputGCD := fun _ => 0 }

/-- Closed instance of C3: against the never-valid trace the default
transaction is returned untouched with the timeout flag, and a one-element
run still publishes it. -/
theorem driver_timeout_spec_witness :
    drive_transaction deadDut GCDTransaction.init = (GCDTransaction.init, true) ∧
    driver_run_phase (fun _ => deadDut) 0 [GCDTransaction.init] = [GCDTransaction.init] :=
  ⟨(driver_timeout_spec deadDut GCDTransaction.init (fun _ => deadDut)
      [GCDTransaction.init] 0 (fun _ => rfl) (fun _ _ => rfl) rfl).2.1,
   (driver_timeout_spec deadDut GCDTransaction.init (fun _ => deadDut)
      [GCDTransaction.init] 0 (fun _ => rfl) (fun _ _ => rfl) rfl).2.2.2⟩

/-- C9: when result-valid first asserts exactly at the edge where the
driver's wait counter reaches the bound (it is low on edges 1..1000 and high
at edge 1001, the edge at which `cycles` becomes 1000), the driver still
takes the timeout branch: the transaction is returned untouched with the
timeout flag even though the valid flag is high at the loop's exit edge. -/
theorem driver_boundary_timeout_spec (dut : DutSignals) (txn : GCDTransaction)
    (hlow : ∀ t, 1 ≤ t → t ≤ max_cycles → dut.outputValid t = false)
    (hhigh : dut.outputValid (max_cycles + 1) = true) :
    drive_transaction dut txn = (txn, true) ∧
    dut.outputValid (waitLoop dut.outputValid (max_cycles + 1)
        (drainLoop dut.outputValid (max_wait + 1) 1 0) 0).1 = true := by
  have hmc : max_cycles = 1000 := rfl
  have hdrain : drainLoop dut.outputValid (max_wait + 1) 1 0 = 1 :=
    drainLoop_exit _ _ _ _ (hlow 1 (by omega) (by omega))
  have hwait : waitLoop dut.outputValid (max_cycles + 1) 1 0 = (1 + max_cycles, max_cycles) :=
    waitLoop_never _ _ (fun i hi => hlow (1 + i) (by omega) (by omega))
  constructor
  · simp [drive_transaction, hdrain, hwait]
  · rw [hdrain, hwait]
    simpa [Nat.add_comm] using hhigh

/-- A trace whose result-valid flag first asserts at edge 1001, exactly when
the driver's wait counter reaches the bound. -/
def lateDut : DutSignals :=
  { loadingValues := fun _ => false, value1 := fun _ => 0, value2 := fun _ => 0,
    outputValid := fun t => decide (max_cycles + 1 ≤ t), outputGCD := fun _ => 7 }

/-- Closed instance of C9: the boundary trace is classified as a timeout. -/
theorem driver_boundary_timeout_spec_witness :
    drive_transaction lateDut GCDTransaction.init = (GCDTransaction.init, true) :=
  (driver_boundary_timeout_spec lateDut GCDTransaction.init
    (fun t _ h2 => by simp only [lateDut, decide_eq_false_iff_not]; omega)
    (by simp [lateDut])).1

/-- C6: when the monitor has sampled the load strobe high at edge `t`, a
bounded wait for result-valid that never succeeds within `max_cycles` edges
makes the monitor drop the reconstructed transaction — nothing is published
(`none`), only a warning is logged; when the valid flag first asserts at
offset `j` within the bound, the transaction is published with the operands
sampled at the load edge and the output sampled at the assert edge, with the
valid flag true. -/
theorem monitor_timeout_spec (dut : DutSignals) (t : Nat)
    (hload : dut.loadingValues t = true) :
    ((∀ i, i < max_cycles → dut.outputValid (t + i) = false) →
      monitorObserve dut t = none) ∧
    (∀ j, j < max_cycles → (∀ i, i < j → dut.outputValid (t + i) = false) →
      dut.outputValid (t + j) = true →
      monitorObserve dut t =
        some { value1 := dut.value1 t, value2 := dut.value2 t, loadingValues := true,
               outputGCD := dut.outputGCD (t + j), outputValid := true }) := by
  constructor
  · intro hnever
    have hwait := waitLoop_never dut.outputValid t hnever
    simp [monitorObserve, hload, hwait]
  · intro j hj hbefore hat
    have hwait := waitLoop_first dut.outputValid t j hj hbefore hat
    simp [monitorObserve, hload, hwait, hj, hat, GCDTransaction.init]

/-- A trace that loads at edge 0 and never asserts result-valid. -/
def stuckDut : DutSignals :=
  { loadingValues := fun t => decide (t = 0), value1 := fun _ => 5, value2 := fun _ => 7,
    outputValid := fun _ => false, outputGCD := fun _ => 0 }

/-- A trace that loads the pair (48, 18) at edge 0 and asserts result-valid
with output 6 from edge 3 on. -/
def goodDut : DutSignals :=
  { loadingValues := fun t => decide (t = 0), value1 := fun _ => 48, value2 := fun _ => 18,
    outputValid := fun t => decide (3 ≤ t), outputGCD := fun _ => 6 }

/-- Closed instance of C6: the never-valid load is dropped, and the
responsive load is published with the sampled fields. -/
theorem monitor_timeout_spec_witness :
    monitorObserve stuckDut 0 = none ∧
    monitorObserve goodDut 0 =
      some { value1 := 48, value2 := 18, loadingValues := true,
             outputGCD := 6, outputValid := true } :=
  ⟨(monitor_timeout_spec stuckDut 0 rfl).1 (fun _ _ => rfl),
   (monitor_timeout_spec goodDut 0 rfl).2 3 (by decide)
     (fun i hi => by simp only [goodDut, decide_eq_false_iff_not]; omega) rfl⟩

/-- C10: every transaction the monitor publishes carries a true valid flag,
and its output field is the one sampled at the first edge (within the bound)
at which result-valid asserted; the monitor never publishes a transaction
with the valid flag false. -/
theorem monitor_publish_spec (dut : DutSignals) (t : Nat) (txn : GCDTransaction)
    (hpub : monitorObserve dut t = some txn) :
    txn.outputValid = true ∧
    ∃ j, j < max_cycles ∧ dut.outputValid (t + j) = true ∧
      (∀ i, i < j → dut.outputValid (t + i) = false) ∧
      txn.outputGCD = dut.outputGCD (t + j) := by
  by_cases hload : dut.loadingValues t = true
  · obtain ⟨d, hd, hle, hfalse, hvalid⟩ :=
      waitLoop_spec dut.outputValid (max_cycles + 1) t 0 (by omega) (by omega)
    by_cases hdlt : d < max_cycles
    · have hat : dut.outputValid (t + d) = true := hvalid (by omega)
      simp [monitorObserve, hload, hd, hdlt, GCDTransaction.init] at hpub
      refine ⟨?_, d, hdlt, hat, hfalse, ?_⟩
      · rw [← hpub]
        simpa using hat
      · rw [← hpub]
    · have hdeq : d = max_cycles := by omega
      rw [hdeq] at hd
      simp [monitorObserve, hload, hd] at hpub
  · simp [monitorObserve, hload] at hpub

/-- Closed instance of C10: the published transaction of the responsive trace
has a true valid flag and the output sampled where valid asserted. -/
theorem monitor_publish_spec_witness :
    ({ value1 := 48, value2 := 18, loadingValues := true,
       outputGCD := 6, outputValid := true } : GCDTransaction).outputValid = true ∧
    ∃ j, j < max_cycles ∧ goodDut.outputValid (0 + j) = true ∧
      (∀ i, i < j → goodDut.outputValid (0 + i) = false) ∧
      ({ value1 := 48, value2 := 18, loadingValues := true,
         outputGCD := 6, outputValid := true } : GCDTransaction).outputGCD =
        goodDut.outputGCD (0 + j) :=
  monitor_publish_spec goodDut 0 _ rfl

/-- Events of the driver's `run_phase` loop for item index k: the rendezvous
pull returning item k, the analysis-port publish of item k, and the done
signal for item k. -/
inductive DriverEvent where
  | getNext (k : Nat)
  | publish (k : Nat)
  | itemDone (k : Nat)
deriving DecidableEq, Repr

/-- Modelled from the spec: the pyuvm sequencer implementing the
`get_next_item` / `item_done` rendezvous is not part of this repository's
sources — only its caller `GCDDriver.run_phase` is. Per spec section 4.1 the
rendezvous is a capacity-one channel delivering the Sequence's transactions
in production order with exactly one item outstanding. Under that channel the
strictly sequential body of `run_phase` (gcd_driver.py: pull the item, drive
it, publish it, signal done, only then loop) yields this event trace for the
first n produced items. -/
def driverRunTrace : Nat → List DriverEvent
  | 0 => []
  | n + 1 => driverRunTrace n ++
      [DriverEvent.getNext n, DriverEvent.publish n, DriverEvent.itemDone n]

/-- The item index pulled by a `getNext` event, if any. -/
def getIndex : DriverEvent → Option Nat
  | DriverEvent.getNext k => some k
  | _ => none

lemma driverRunTrace_prefix (n m : Nat) (h : m ≤ n) :
    ∃ s, driverRunTrace n = driverRunTrace m ++ s := by
  induction n with
  | zero =>
      have : m = 0 := by omega
      exact ⟨[], by simp [this]⟩
  | succ n ih =>
      by_cases hm : m = n + 1
      · exact ⟨[], by simp [hm]⟩
      · obtain ⟨s, hs⟩ := ih (by omega)
        exact ⟨s ++ [DriverEvent.getNext n, DriverEvent.publish n, DriverEvent.itemDone n],
          by rw [driverRunTrace, hs, List.append_assoc]⟩

/-- C2: for any n produced transactions, the driver's pulls are exactly the
produced items 0..n-1 in production order with no drops, and for every k the
publish of item k and the done signal for item k both occur strictly before
the pull that returns item k+1 — processing is strictly serial. -/
theorem driver_rendezvous_spec (n : Nat) :
    (driverRunTrace n).filterMap getIndex = List.range n ∧
    (∀ k, k + 1 < n →
      ∃ l₁ l₂ l₃ l₄, driverRunTrace n =
        l₁ ++ [DriverEvent.publish k] ++ l₂ ++ [DriverEvent.itemDone k] ++ l₃ ++
          [DriverEvent.getNext (k + 1)] ++ l₄) := by
  constructor
  · induction n with
    | zero => rfl
    | succ n ih =>
        rw [driverRunTrace, List.filterMap_append, ih, List.range_succ]
        rfl
  · intro k hk
    obtain ⟨s, hs⟩ := driverRunTrace_prefix n (k + 2) (by omega)
    refine ⟨driverRunTrace k ++ [DriverEvent.getNext k], [], [],
      [DriverEvent.publish (k + 1), DriverEvent.itemDone (k + 1)] ++ s, ?_⟩
    rw [hs]
    show driverRunTrace (k + 1 + 1) ++ s = _
    rw [driverRunTrace, driverRunTrace]
    simp

/-- Closed instance of C2 at n = 2: pulls are [0, 1] in order, and publish
and done for item 0 precede the pull of item 1. -/
theorem driver_rendezvous_spec_witness :
    (driverRunTrace 2).filterMap getIndex = List.range 2 ∧
    (∃ l₁ l₂ l₃ l₄, driverRunTrace 2 =
      l₁ ++ [DriverEvent.publish 0] ++ l₂ ++ [DriverEvent.itemDone 0] ++ l₃ ++
        [DriverEvent.getNext 1] ++ l₄) :=
  ⟨(driver_rendezvous_spec 2).1, (driver_rendezvous_spec 2).2 0 (by decide)⟩

/-- Embeds `GCDTransaction.randomize`. Randomness is passed as an oracle:
`r1` and `r2` are the two successive `random.random()` draws (uniform in
[0, 1)), and `a b`, `c d`, `base m1 m2` are the results of the
`random.randint` calls of the three branches; the ranges requested from
`randint` (its contract: `randint(lo, hi)` lies in [lo, hi]) appear as
hypotheses in the theorems. -/
def randomize (r1 r2 : ℚ) (a b c d base m1 m2 : Nat) (txn : GCDTransaction) :
    GCDTransaction :=
  if r1 < 7/10 then
    { txn with value1 := a, value2 := b, loadingValues := true }
  else if r2 < 8/10 then
    { txn with value1 := c, value2 := d, loadingValues := true }
  else
    { txn with value1 := base * m1, value2 := base * m2, loadingValues := true }

/-- The literal directed pairs of `DirectedGCDSequence.body`. -/
def directed_test_cases : List (Nat × Nat) :=
  [(1, 1), (17, 19), (48, 18), (100, 100), (65535, 65535),
   (256, 1024), (15, 25), (54, 24), (1071, 462)]

/-- The literal pairs of `CornerCaseSequence.body`. -/
def corner_cases : List (Nat × Nat) :=
  [(32768, 32768), (255, 256), (3, 5), (7, 11), (13, 17)]

/-- Embeds the per-iteration choice of `BackToBackSequence.body`: every third
item draws both operands from `randint(1, 100)`, the others call
`randomize`. -/
def back_to_back_draw (i : Nat) (q1 q2 : Nat) (r1 r2 : ℚ)
    (a b c d base m1 m2 : Nat) (txn : GCDTransaction) : GCDTransaction :=
  if i % 3 = 0 then
    { txn with value1 := q1, value2 := q2 }
  else
    randomize r1 r2 a b c d base m1 m2 txn

lemma randomize_pos (r1 r2 : ℚ) (a b c d base m1 m2 : Nat) (txn : GCDTransaction)
    (ha : 1 ≤ a) (hb : 1 ≤ b) (hc : 1 ≤ c) (hd : 1 ≤ d)
    (hbase : 1 ≤ base) (hm1 : 1 ≤ m1) (hm2 : 1 ≤ m2) :
    0 < (randomize r1 r2 a b c d base m1 m2 txn).value1 ∧
    0 < (randomize r1 r2 a b c d base m1 m2 txn).value2 := by
  unfold randomize
  split_ifs <;> refine ⟨?_, ?_⟩ <;> simp <;> omega

/-- C8: the random policy's draws follow the tiered structure of the source:
when the first uniform draw is below 7/10 both operands are the values drawn
from [1, 10000]; otherwise when the second uniform draw is below 8/10 both
are the values drawn from [1, 1000]; otherwise each operand is the base drawn
from [1, 20000] times its multiplier drawn from [1, 3]. Under the randint
range contracts, no branch of `randomize` can produce a zero operand, and
neither can the directed, corner-case, or back-to-back policies. -/
theorem generation_policy_spec (r1 r2 : ℚ) (a b c d base m1 m2 : Nat)
    (i q1 q2 : Nat) (txn : GCDTransaction)
    (ha : 1 ≤ a ∧ a ≤ 10000) (hb : 1 ≤ b ∧ b ≤ 10000)
    (hc : 1 ≤ c ∧ c ≤ 1000) (hd : 1 ≤ d ∧ d ≤ 1000)
    (hbase : 1 ≤ base ∧ base ≤ 20000)
    (hm1 : 1 ≤ m1 ∧ m1 ≤ 3) (hm2 : 1 ≤ m2 ∧ m2 ≤ 3)
    (hq1 : 1 ≤ q1 ∧ q1 ≤ 100) (hq2 : 1 ≤ q2 ∧ q2 ≤ 100) :
    (r1 < 7/10 →
      (randomize r1 r2 a b c d base m1 m2 txn).value1 = a ∧
      (randomize r1 r2 a b c d base m1 m2 txn).value2 = b ∧
      1 ≤ a ∧ a ≤ 10000 ∧ 1 ≤ b ∧ b ≤ 10000) ∧
    (¬ r1 < 7/10 → r2 < 8/10 →
      (randomize r1 r2 a b c d base m1 m2 txn).value1 = c ∧
      (randomize r1 r2 a b c d base m1 m2 txn).value2 = d ∧
      1 ≤ c ∧ c ≤ 1000 ∧ 1 ≤ d ∧ d ≤ 1000) ∧
    (¬ r1 < 7/10 → ¬ r2 < 8/10 →
      (randomize r1 r2 a b c d base m1 m2 txn).value1 = base * m1 ∧
      (randomize r1 r2 a b c d base m1 m2 txn).value2 = base * m2 ∧
      1 ≤ base ∧ base ≤ 20000 ∧ 1 ≤ m1 ∧ m1 ≤ 3 ∧ 1 ≤ m2 ∧ m2 ≤ 3) ∧
    (0 < (randomize r1 r2 a b c d base m1 m2 txn).value1 ∧
     0 < (randomize r1 r2 a b c d base m1 m2 txn).value2) ∧
    (∀ p ∈ directed_test_cases, 0 < p.1 ∧ 0 < p.2) ∧
    (∀ p ∈ corner_cases, 0 < p.1 ∧ 0 < p.2) ∧
    (0 < (back_to_back_draw i q1 q2 r1 r2 a b c d base m1 m2 txn).value1 ∧
     0 < (back_to_back_draw i q1 q2 r1 r2 a b c d base m1 m2 txn).value2) := by
  have hpos := randomize_pos r1 r2 a b c d base m1 m2 txn
    ha.1 hb.1 hc.1 hd.1 hbase.1 hm1.1 hm2.1
  refine ⟨?_, ?_, ?_, hpos, by decide, by decide, ?_⟩
  · intro h1
    simp [randomize, h1]
    omega
  · intro h1 h2
    simp [randomize, h1, h2]
    omega
  · intro h1 h2
    simp [randomize, h1, h2]
    omega
  · unfold back_to_back_draw
    split_ifs
    · refine ⟨?_, ?_⟩ <;> simp <;> omega
    · exact hpos

/-- Closed instance of C8: a tier-one draw yields the drawn operands. -/
theorem generation_policy_spec_witness :
    (randomize 0 0 42 77 5 6 300 2 3 GCDTransaction.init).value1 = 42 ∧
    (randomize 0 0 42 77 5 6 300 2 3 GCDTransaction.init).value2 = 77 ∧
    1 ≤ 42 ∧ 42 ≤ 10000 ∧ 1 ≤ 77 ∧ 77 ≤ 10000 :=
  (generation_policy_spec 0 0 42 77 5 6 300 2 3 0 9 9 GCDTransaction.init
    (by decide) (by decide) (by decide) (by decide) (by decide) (by decide)
    (by decide) (by decide) (by decide)).1 (by norm_num)
